import Mathlib

/-!
Shallow embedding of the POS backend (ASP.NET minimal API embedded in the
repository) together with the relevant client-side logic of the React
Native screens.  Monetary `double` values are modelled as `ℚ`, C# `int`
as `Int` (stock may go negative), database keys as `Nat`, and
`DateTime` timestamps as `Nat` ticks.  The database context is a pair of
lists; `FindAsync` is `List.find?` on the primary key and an in-place
entity mutation is a first-match replacement.
-/

/-- C# model `Product` (edit-product.tsx, MODELS section). -/
structure Product where
  id : Nat
  name : String
  description : String
  price : ℚ
  stock : Int
  category : String
  image : Option String
  isActive : Bool
  createdAt : Nat
  updatedAt : Nat
deriving DecidableEq, Repr

/-- C# model `TransactionItem`. -/
structure TransactionItem where
  id : Nat
  productId : Nat
  productName : String
  price : ℚ
  quantity : Int
  total : ℚ
deriving DecidableEq, Repr

/-- C# model `Transaction` (named `Txn` here; `Transaction` clashes with Mathlib). -/
structure Txn where
  id : Nat
  transactionNumber : String
  createdAt : Nat
  status : String
  subtotal : ℚ
  tax : ℚ
  discount : ℚ
  total : ℚ
  paymentMethod : String
  customerName : Option String
  notes : Option String
  items : List TransactionItem
deriving DecidableEq, Repr

/-- The persistent store (`AppDbContext`): products and transactions tables. -/
structure Store where
  products : List Product
  transactions : List Txn
deriving DecidableEq, Repr

/-- `db.Products.FindAsync(id)`: lookup by primary key. -/
def findProduct (s : Store) (id : Nat) : Option Product :=
  s.products.find? (fun p => p.id == id)

/-- `GET /api/products`: `db.Products.Where(p => p.IsActive)`. -/
def getProducts (s : Store) : List Product :=
  s.products.filter (fun p => p.isActive)

/-- `GET /api/products/{id}`: `FindAsync(id) is Product p ? Ok(p) : NotFound()`.
`none` models the 404 response. -/
def getProduct (s : Store) (id : Nat) : Option Product :=
  findProduct s id

/-- `POST /api/products`: sets `CreatedAt`/`UpdatedAt` to now, adds the product
as given (no validation of any field), returns `Created` with the product. -/
def createProduct (s : Store) (now : Nat) (product : Product) : Store × Product :=
  let p := { product with createdAt := now, updatedAt := now }
  ({ s with products := s.products ++ [p] }, p)

/-- Mutation of the single tracked entity returned by `FindAsync`: replace the
first record with the given key. -/
def updateFirst (ps : List Product) (pid : Nat) (f : Product → Product) : List Product :=
  match ps with
  | [] => []
  | p :: rest => if p.id == pid then f p :: rest else p :: updateFirst rest pid f

/-- The deserialized body of `PUT /api/products/{id}` as the handler sees it:
reference-typed fields are `null`able (`none` = null), value-typed fields
(`Price`, `Stock`, `IsActive`) always carry a value. -/
structure ProductBody where
  name : Option String
  description : Option String
  price : ℚ
  stock : Int
  category : Option String
  image : Option String
  isActive : Bool
deriving DecidableEq, Repr

/-- The field merge of `PUT /api/products/{id}`:
`Name = update.Name ?? product.Name`, …,
`Price = update.Price != 0 ? update.Price : product.Price`,
`Stock = update.Stock != 0 ? update.Stock : product.Stock`,
`IsActive = update.IsActive`, `UpdatedAt = now`. -/
def mergeProduct (u : ProductBody) (now : Nat) (p : Product) : Product :=
  { p with
    name := u.name.getD p.name
    description := u.description.getD p.description
    price := if u.price ≠ 0 then u.price else p.price
    stock := if u.stock ≠ 0 then u.stock else p.stock
    category := u.category.getD p.category
    image := match u.image with
             | some i => some i
             | none => p.image
    isActive := u.isActive
    updatedAt := now }

/-- `PUT /api/products/{id}`: `FindAsync`, 404 when absent, otherwise merge
into the tracked entity and save.  `none` models the 404 response. -/
def updateProduct (s : Store) (now : Nat) (id : Nat) (u : ProductBody) : Option Store :=
  match findProduct s id with
  | none => none
  | some _ => some { s with products := updateFirst s.products id (mergeProduct u now) }

/-- The entity mutation of `DELETE /api/products/{id}`:
`product.IsActive = false; product.UpdatedAt = now`. -/
def deactFn (now : Nat) (p : Product) : Product :=
  { p with isActive := false, updatedAt := now }

/-- `DELETE /api/products/{id}`: `FindAsync`, 404 when absent, otherwise
`IsActive = false`, `UpdatedAt = now`, save, `Ok`. -/
def deactivateProduct (s : Store) (now : Nat) (id : Nat) : Option Store :=
  match findProduct s id with
  | none => none
  | some _ => some { s with products := updateFirst s.products id (deactFn now) }

/-- The `k` low-order decimal digit characters of `n`, most significant first
(the decimal representation of `n` zero-padded to width `k`, for `n < 10 ^ k`). -/
def digitsPad : Nat → Nat → List Char
  | 0, _ => []
  | k + 1, n => Nat.digitChar (n / 10 ^ k) :: digitsPad k (n % 10 ^ k)

/-- Number of decimal digits of a C# `int` value (a comparison ladder: C# `int`
never exceeds ten digits). -/
def decimalLen (n : Nat) : Nat :=
  if n < 10 then 1 else if n < 100 then 2 else if n < 1000 then 3
  else if n < 10000 then 4 else if n < 100000 then 5 else if n < 1000000 then 6
  else if n < 10000000 then 7 else if n < 100000000 then 8
  else if n < 1000000000 then 9 else 10

/-- C# custom numeric format `{n:000000}`: the decimal representation of `n`
zero-padded on the left to at least six digits (longer values print in full). -/
def formatMin6 (n : Nat) : String :=
  String.mk (digitsPad (max 6 (decimalLen n)) n)

/-- The transaction number assigned when the store already holds `count`
transactions: `$"TXN-{count + 1:000000}"`. -/
def txnNumber (count : Nat) : String :=
  "TXN-" ++ formatMin6 (count + 1)

/-- Stock decrement applied to the tracked product entity for one line:
`product.Stock -= item.Quantity; product.UpdatedAt = now`. -/
def decrItem (now : Nat) (it : TransactionItem) (p : Product) : Product :=
  { p with stock := p.stock - it.quantity, updatedAt := now }

/-- One iteration of the `foreach (var item in transaction.Items)` loop:
`FindAsync(item.ProductId)`, and only when the product exists, decrement its
stock and refresh its timestamp (a missing product is silently skipped). -/
def applyItem (now : Nat) (ps : List Product) (it : TransactionItem) : List Product :=
  match ps.find? (fun p => p.id == it.productId) with
  | none => ps
  | some _ => updateFirst ps it.productId (decrItem now it)

/-- `POST /api/transactions`: count the transactions, assign
`TXN-{count+1:000000}`, stamp `CreatedAt`/`Status`, run the stock-decrement
loop over the items, add the transaction and save.  There is no validation
and no failure path: the handler always returns `Created`. -/
def createTransaction (s : Store) (now : Nat) (t : Txn) : Store × Txn :=
  let count := s.transactions.length
  let assigned := { t with transactionNumber := txnNumber count, createdAt := now,
                           status := "completed" }
  let products := t.items.foldl (applyItem now) s.products
  ({ products := products, transactions := s.transactions ++ [assigned] }, assigned)

/-- The response record of `GET /api/dashboard/stats`. -/
structure DashboardStats where
  totalProducts : Nat
  totalTransactions : Nat
  todayRevenue : ℚ
  todayTransactions : Nat
  lowStockCount : Nat
deriving DecidableEq, Repr

/-- `GET /api/dashboard/stats`, parameterized by `todayStart`
(`DateTime.UtcNow.Date`, the start of the current UTC day):
active-product count, all-time transaction count, revenue and count over
transactions with `CreatedAt >= todayStart`, and the count of active
products with `Stock < 10`. -/
def dashboardStats (s : Store) (todayStart : Nat) : DashboardStats :=
  let todaySales := s.transactions.filter (fun t => todayStart ≤ t.createdAt)
  { totalProducts := (s.products.filter (fun p => p.isActive)).length
    totalTransactions := s.transactions.length
    todayRevenue := (todaySales.map (fun t => t.total)).sum
    todayTransactions := todaySales.length
    lowStockCount := (s.products.filter (fun p => p.stock < 10 && p.isActive)).length }

/-! ### Client-side logic (React Native screens) -/

/-- A cart line of the products screen: a product and its chosen quantity. -/
structure CartItem where
  product : Product
  quantity : Int
deriving DecidableEq, Repr

/-- `calculateTotal` (products.tsx): `cart.reduce((sum, item) => sum +
item.product.price * item.quantity, 0)`. -/
def calculateTotal (cart : List CartItem) : ℚ :=
  cart.foldl (fun sum item => sum + item.product.price * item.quantity) 0

/-- The transaction request body built by `processTransaction` (products.tsx):
one line per cart item with the product's client-side price, `total =
price * quantity`, `subtotal = total = calculateTotal(cart)`, `tax = 0`,
`discount = 0`; `none` models the guarded empty-cart early return. -/
def buildTransactionData (cart : List CartItem) : Option Txn :=
  if cart.isEmpty then none
  else some
    { id := 0
      transactionNumber := ""
      createdAt := 0
      status := ""
      subtotal := calculateTotal cart
      tax := 0
      discount := 0
      total := calculateTotal cart
      paymentMethod := "cash"
      customerName := none
      notes := none
      items := cart.map (fun item =>
        { id := 0
          productId := item.product.id
          productName := item.product.name
          price := item.product.price
          quantity := item.quantity
          total := item.product.price * item.quantity }) }

/-- The add-product form state, with the numeric fields already parsed:
`none` models an empty or non-numeric text field (`!text || isNaN(Number(text))`). -/
structure ProductForm where
  name : String
  description : String
  price : Option ℚ
  stock : Option Int
  category : String
  image : String
deriving DecidableEq, Repr

/-- JavaScript `String.prototype.trim`: strip leading and trailing
whitespace characters. -/
def jsTrim (s : String) : String :=
  String.mk (((s.data.dropWhile Char.isWhitespace).reverse.dropWhile Char.isWhitespace).reverse)

/-- `handleSubmit` of the add-product screen: rejects a blank name, a missing
or non-positive price, and a missing or negative stock; otherwise builds the
request body with trimmed strings, `category || 'General'` and
`image || undefined`.  `none` models a validation alert (no request sent). -/
def buildProductData (f : ProductForm) : Option Product :=
  if jsTrim f.name = "" then none
  else match f.price with
    | none => none
    | some price =>
      if price ≤ 0 then none
      else match f.stock with
        | none => none
        | some stock =>
          if stock < 0 then none
          else some
            { id := 0
              name := jsTrim f.name
              description := jsTrim f.description
              price := price
              stock := stock
              category := if f.category = "" then "General" else f.category
              image := if f.image = "" then none else some f.image
              isActive := true
              createdAt := 0
              updatedAt := 0 }

/-- Sum of the quantities of the lines of `items` that reference product `pid`. -/
def qtySum (items : List TransactionItem) (pid : Nat) : Int :=
  ((items.filter (fun it => it.productId == pid)).map (fun it => it.quantity)).sum

/-! ### Helper lemmas about the store primitives -/

theorem updateFirst_nil (pid : Nat) (f : Product → Product) :
    updateFirst [] pid f = [] := rfl

theorem updateFirst_cons (p : Product) (rest : List Product) (pid : Nat)
    (f : Product → Product) :
    updateFirst (p :: rest) pid f =
      if p.id == pid then f p :: rest else p :: updateFirst rest pid f := rfl

/-- Looking up the key that was just updated returns the updated record,
provided the update preserves the key. -/
theorem find?_updateFirst (ps : List Product) (pid : Nat) (f : Product → Product)
    (hf : ∀ x, (f x).id = x.id) (p : Product)
    (hp : ps.find? (fun q => q.id == pid) = some p) :
    (updateFirst ps pid f).find? (fun q => q.id == pid) = some (f p) := by
  induction ps with
  | nil => simp at hp
  | cons q rest ih =>
    by_cases hq : q.id = pid
    · rw [List.find?_cons_of_pos _ (by simpa using hq)] at hp
      obtain rfl := Option.some.inj hp
      rw [updateFirst_cons, if_pos (by simpa using hq)]
      exact List.find?_cons_of_pos _ (by simpa using (hf q).trans hq)
    · rw [List.find?_cons_of_neg _ (by simpa using hq)] at hp
      rw [updateFirst_cons, if_neg (by simpa using hq)]
      rw [List.find?_cons_of_neg _ (by simpa using hq)]
      exact ih hp

/-- `updateFirst` preserves the key sequence when the update preserves keys. -/
theorem updateFirst_map_id (ps : List Product) (pid : Nat) (f : Product → Product)
    (hf : ∀ x, (f x).id = x.id) :
    (updateFirst ps pid f).map Product.id = ps.map Product.id := by
  induction ps with
  | nil => rfl
  | cons q rest ih =>
    rw [updateFirst_cons]
    by_cases hq : q.id == pid
    · simp [hq, hf]
    · simp only [hq]
      simp [ih]

/-! ### C8: deactivation -/

/-- C8: `DELETE /api/products/{id}` fails with NotFound exactly when the id is
absent; otherwise it sets the product's active flag to false and refreshes its
timestamp, touches no transaction, and a second call on the same id still
succeeds with the flag still false. -/
theorem deactivateProduct_spec (s : Store) (now now2 : Nat) (id : Nat) :
    (findProduct s id = none → deactivateProduct s now id = none) ∧
    ∀ p, findProduct s id = some p →
      ∃ s', deactivateProduct s now id = some s' ∧
        findProduct s' id = some { p with isActive := false, updatedAt := now } ∧
        s'.transactions = s.transactions ∧
        ∃ s'', deactivateProduct s' now2 id = some s'' ∧
          findProduct s'' id = some { p with isActive := false, updatedAt := now2 } := by
  constructor
  · intro h
    simp [deactivateProduct, h]
  · intro p hp
    have h1 : findProduct (Store.mk (updateFirst s.products id (deactFn now)) s.transactions) id = some (deactFn now p) :=
      find?_updateFirst s.products id (deactFn now) (fun _ => rfl) p hp
    refine ⟨_, by simp [deactivateProduct, hp], h1, rfl, ?_⟩
    refine ⟨_, by simp [deactivateProduct]; rw [h1], ?_⟩
    have h2 := find?_updateFirst _ id (deactFn now2) (fun _ => rfl) _ h1
    exact h2

/-- Concrete store used by several witnesses: one active product of id 1,
price 10, stock 5, and no transactions. -/
def sampleProduct : Product :=
  { id := 1, name := "Coffee", description := "", price := 10, stock := 5,
    category := "General", image := none, isActive := true, createdAt := 0, updatedAt := 0 }

/-- A store holding just `sampleProduct`. -/
def sampleStore : Store :=
  { products := [sampleProduct], transactions := [] }

theorem deactivateProduct_spec_witness :
    findProduct sampleStore 1 = some sampleProduct ∧
    ∃ s', deactivateProduct sampleStore 5 1 = some s' ∧
      findProduct s' 1 = some { sampleProduct with isActive := false, updatedAt := 5 } ∧
      s'.transactions = sampleStore.transactions ∧
      ∃ s'', deactivateProduct s' 6 1 = some s'' ∧
        findProduct s'' 1 = some { sampleProduct with isActive := false, updatedAt := 6 } :=
  ⟨by decide, (deactivateProduct_spec sampleStore 5 6 1).2 sampleProduct (by decide)⟩

/-! ### C10: by-id lookup ignores the active flag -/

/-- C10: `GET /api/products/{id}` fails with NotFound iff no record with that
id exists, regardless of the active flag; after a successful deactivation the
product is still returned by the by-id lookup, now inactive, while it no
longer appears in the active-products list. -/
theorem getProduct_spec (s : Store) (id : Nat) (now : Nat) :
    (getProduct s id = none ↔ ∀ p ∈ s.products, p.id ≠ id) ∧
    (∀ s', deactivateProduct s now id = some s' →
      ∃ p', getProduct s' id = some p' ∧ p'.isActive = false ∧ p' ∉ getProducts s') := by
  constructor
  · simp [getProduct, findProduct, List.find?_eq_none]
  · intro s' hs'
    match hfind : findProduct s id with
    | none => simp [deactivateProduct, hfind] at hs'
    | some p =>
      have hstep : s' = Store.mk (updateFirst s.products id (deactFn now)) s.transactions := by
        simp [deactivateProduct, hfind] at hs'
        exact hs'.symm
      refine ⟨deactFn now p, ?_, rfl, ?_⟩
      · rw [hstep]
        exact find?_updateFirst s.products id (deactFn now) (fun _ => rfl) p hfind
      · intro hmem
        have := (List.mem_filter.mp hmem).2
        simp [deactFn] at this

theorem getProduct_spec_witness :
    (getProduct sampleStore 2 = none ↔ ∀ p ∈ sampleStore.products, p.id ≠ 2) ∧
    ∃ s', deactivateProduct sampleStore 7 1 = some s' ∧
      ∃ p', getProduct s' 1 = some p' ∧ p'.isActive = false ∧ p' ∉ getProducts s' := by
  refine ⟨(getProduct_spec sampleStore 2 7).1, ?_⟩
  refine ⟨_, rfl, (getProduct_spec sampleStore 1 7).2 _ rfl⟩

/-! ### C7: partial update -/

/-- A `PUT /api/products/{id}` body at the JSON level: `none` marks a
property omitted from the JSON object (an explicitly-null string property is
representable directly at the `ProductBody` level). -/
structure PutRequest where
  name : Option String
  description : Option String
  price : Option ℚ
  stock : Option Int
  category : Option String
  image : Option String
  isActive : Option Bool
deriving DecidableEq, Repr

/-- System.Text.Json deserialization of a `PUT` body into the C# `Product`
parameter as the handler receives it: an omitted property keeps the C#
initializer — `Name = ""`, `Description = ""`, `Category = "General"`,
`Image = null`, `IsActive = true` — and an omitted value-typed property is
`default` (0). -/
def deserializeBody (r : PutRequest) : ProductBody :=
  { name := some (r.name.getD "")
    description := some (r.description.getD "")
    price := r.price.getD 0
    stock := r.stock.getD 0
    category := some (r.category.getD "General")
    image := r.image
    isActive := r.isActive.getD true }

/-- A `PUT` request that supplies no fields at all. -/
def noFieldPut : PutRequest :=
  { name := none, description := none, price := none, stock := none,
    category := none, image := none, isActive := none }

/-- C7 amended: `PUT /api/products/{id}` fails with NotFound exactly when the
id is absent; otherwise it recomputes the updated-timestamp and, for an
arbitrary body, keeps a stored field exactly when the body carries the
handler's unset marker for it (null for the string fields, zero for
price/stock) and takes the body's value otherwise — while the active flag,
which has no marker, is always overwritten with the body's value.  Since an
omitted JSON property deserializes to its C# initializer (`""` for
name/description, `"General"` for category, null only for image, zero for
price/stock, `true` for is_active), a request that omits every field
preserves only price, stock and image: it clears name and description,
resets category to "General" and forces the active flag to true. -/
theorem updateProduct_spec (s : Store) (now id : Nat) (u : ProductBody) :
    (updateProduct s now id u = none ↔ findProduct s id = none) ∧
    (∀ p, findProduct s id = some p →
      ∃ s', updateProduct s now id u = some s' ∧
        s'.transactions = s.transactions ∧
        ∃ q, findProduct s' id = some q ∧
          ((u.name = none → q.name = p.name) ∧ (∀ v, u.name = some v → q.name = v)) ∧
          ((u.description = none → q.description = p.description) ∧
            (∀ v, u.description = some v → q.description = v)) ∧
          ((u.price = 0 → q.price = p.price) ∧ (u.price ≠ 0 → q.price = u.price)) ∧
          ((u.stock = 0 → q.stock = p.stock) ∧ (u.stock ≠ 0 → q.stock = u.stock)) ∧
          ((u.category = none → q.category = p.category) ∧
            (∀ v, u.category = some v → q.category = v)) ∧
          ((u.image = none → q.image = p.image) ∧
            (∀ v, u.image = some v → q.image = some v)) ∧
          q.isActive = u.isActive ∧ q.updatedAt = now ∧ q.createdAt = p.createdAt) ∧
    (deserializeBody noFieldPut =
      ProductBody.mk (some "") (some "") 0 0 (some "General") none true) ∧
    (∀ p, findProduct s id = some p →
      ∃ s', updateProduct s now id (deserializeBody noFieldPut) = some s' ∧
        ∃ q, findProduct s' id = some q ∧ q.name = "" ∧ q.description = "" ∧
          q.category = "General" ∧ q.isActive = true ∧ q.price = p.price ∧
          q.stock = p.stock ∧ q.image = p.image ∧ q.createdAt = p.createdAt ∧
          q.updatedAt = now) := by
  refine ⟨?_, ?_, rfl, ?_⟩
  · cases h : findProduct s id <;> simp [updateProduct, h]
  · intro p hp
    refine ⟨Store.mk (updateFirst s.products id (mergeProduct u now)) s.transactions,
      by simp [updateProduct, hp], rfl, mergeProduct u now p,
      find?_updateFirst s.products id (mergeProduct u now) (fun _ => rfl) p hp,
      ⟨fun hn => by simp [mergeProduct, hn], fun v hv => by simp [mergeProduct, hv]⟩,
      ⟨fun hn => by simp [mergeProduct, hn], fun v hv => by simp [mergeProduct, hv]⟩,
      ⟨fun h0 => by simp [mergeProduct, h0], fun h0 => by simp [mergeProduct, h0]⟩,
      ⟨fun h0 => by simp [mergeProduct, h0], fun h0 => by simp [mergeProduct, h0]⟩,
      ⟨fun hn => by simp [mergeProduct, hn], fun v hv => by simp [mergeProduct, hv]⟩,
      ⟨fun hn => by simp [mergeProduct, hn], fun v hv => by simp [mergeProduct, hv]⟩,
      rfl, rfl, rfl⟩
  · intro p hp
    refine ⟨Store.mk (updateFirst s.products id
        (mergeProduct (deserializeBody noFieldPut) now)) s.transactions,
      by simp [updateProduct, hp], mergeProduct (deserializeBody noFieldPut) now p,
      find?_updateFirst s.products id (mergeProduct (deserializeBody noFieldPut) now)
        (fun _ => rfl) p hp,
      rfl, rfl, rfl, rfl, by simp [mergeProduct, deserializeBody, noFieldPut],
      by simp [mergeProduct, deserializeBody, noFieldPut],
      by simp [mergeProduct, deserializeBody, noFieldPut], rfl, rfl⟩

/-- A body supplying some fields (name, price, image, the active flag) while
leaving the others at their unset markers. -/
def mixedBody : ProductBody :=
  { name := some "Latte", description := none, price := 12, stock := 0,
    category := none, image := some "img", isActive := false }

theorem updateProduct_spec_witness :
    findProduct sampleStore 1 = some sampleProduct ∧
    mixedBody.name = some "Latte" ∧ mixedBody.description = none ∧
    mixedBody.price = 12 ∧ mixedBody.stock = 0 ∧ mixedBody.category = none ∧
    mixedBody.isActive = false ∧
    ∃ s', updateProduct sampleStore 8 1 mixedBody = some s' ∧
      s'.transactions = sampleStore.transactions ∧
      ∃ q, findProduct s' 1 = some q ∧ q.name = "Latte" ∧
        q.description = sampleProduct.description ∧ q.price = 12 ∧
        q.stock = sampleProduct.stock ∧ q.category = sampleProduct.category ∧
        q.image = some "img" ∧ q.isActive = false ∧ q.updatedAt = 8 ∧
        q.createdAt = sampleProduct.createdAt := by
  obtain ⟨s', hs', htr, q, hq, hname, hdesc, hprice, hstock, hcat, himg, hact, hupd, hcre⟩ :=
    (updateProduct_spec sampleStore 8 1 mixedBody).2.1 sampleProduct (by decide)
  exact ⟨by decide, rfl, rfl, rfl, rfl, rfl, rfl, s', hs', htr, q, hq,
    hname.2 "Latte" rfl, hdesc.1 rfl, hprice.2 (by decide), hstock.1 rfl,
    hcat.1 rfl, himg.2 "img" rfl, hact, hupd, hcre⟩

/-- A deactivated product whose name, description and category are
nontrivial, so every clobbered field is visible. -/
def coffeeProduct : Product :=
  { id := 1, name := "Coffee", description := "Hot", price := 10, stock := 5,
    category := "Drinks", image := none, isActive := false, createdAt := 0, updatedAt := 0 }

/-- A store holding just `coffeeProduct`. -/
def coffeeStore : Store :=
  { products := [coffeeProduct], transactions := [] }

/-- The record the no-field `PUT` leaves behind: name/description cleared,
category reset, active flag forced true; price, stock and image kept. -/
def coffeeClobbered : Product :=
  { coffeeProduct with name := "", description := "", category := "General", isActive := true, updatedAt := 9 }

/-- C7 counterexample: a `PUT` that supplies no fields at all — whose body
therefore deserializes to the C# initializers — changes four unsupplied
fields of the stored record: name and description are cleared to `""`,
category is reset to `"General"`, and the active flag of the deactivated
product flips back to `true`; only price, stock and image survive. -/
theorem updateProduct_cex :
    noFieldPut = PutRequest.mk none none none none none none none ∧
    coffeeProduct.name = "Coffee" ∧ coffeeProduct.description = "Hot" ∧
    coffeeProduct.category = "Drinks" ∧ coffeeProduct.isActive = false ∧
    updateProduct coffeeStore 9 1 (deserializeBody noFieldPut) =
      some (Store.mk [coffeeClobbered] []) := by
  decide

/-! ### C6: product creation validation -/

/-- C6 amended: the server's `POST /api/products` performs no validation and
stores the submitted product (with refreshed timestamps) whatever its fields;
the name/price/stock bounds are enforced only by the client form handler,
whose successful submissions always satisfy name nonempty, price > 0,
stock ≥ 0, with category defaulted to "General" when left unset. -/
theorem productCreation_spec :
    (∀ (s : Store) (now : Nat) (p : Product),
      (createProduct s now p).1.products =
        s.products ++ [{ p with createdAt := now, updatedAt := now }]) ∧
    (∀ f d, buildProductData f = some d →
      d.name ≠ "" ∧ 0 < d.price ∧ 0 ≤ d.stock ∧
      (f.category = "" → d.category = "General")) := by
  refine ⟨fun s now p => rfl, fun f d h => ?_⟩
  unfold buildProductData at h
  split at h
  · exact absurd h (by simp)
  · rename_i h1
    split at h
    · exact absurd h (by simp)
    · rename_i price hp
      split at h
      · exact absurd h (by simp)
      · rename_i h2
        split at h
        · exact absurd h (by simp)
        · rename_i stock hs
          split at h
          · exact absurd h (by simp)
          · rename_i h3
            obtain rfl := Option.some.inj h
            exact ⟨h1, not_le.mp h2, show (0 : Int) ≤ stock by omega, fun hc => by simp [hc]⟩

/-- A valid add-product form submission. -/
def teaForm : ProductForm :=
  { name := "Tea", description := "", price := some 2, stock := some 4,
    category := "", image := "" }

/-- The request body the client builds from `teaForm`. -/
def teaProduct : Product :=
  { id := 0, name := "Tea", description := "", price := 2, stock := 4,
    category := "General", image := none, isActive := true, createdAt := 0, updatedAt := 0 }

theorem productCreation_spec_witness :
    (createProduct sampleStore 3 sampleProduct).1.products =
      sampleStore.products ++ [{ sampleProduct with createdAt := 3, updatedAt := 3 }] ∧
    buildProductData teaForm = some teaProduct ∧
    teaProduct.name ≠ "" ∧ 0 < teaProduct.price ∧ 0 ≤ teaProduct.stock ∧
    (teaForm.category = "" → teaProduct.category = "General") :=
  have h := productCreation_spec.2 teaForm teaProduct (by decide)
  ⟨productCreation_spec.1 sampleStore 3 sampleProduct, by decide, h⟩

/-- A product violating every creation bound of the claim. -/
def badProduct : Product :=
  { id := 7, name := "", description := "", price := -1, stock := -3,
    category := "X", image := none, isActive := true, createdAt := 0, updatedAt := 0 }

/-- The update body of the counterexample, carrying out-of-bounds values. -/
def badBody : ProductBody :=
  { name := none, description := none, price := -5, stock := -2, category := none,
    image := none, isActive := true }

/-- The stored product after the out-of-bounds update is accepted. -/
def badUpdated : Product :=
  { sampleProduct with price := -5, stock := -2, isActive := true, updatedAt := 4 }

/-- C6 counterexample: the server accepts and stores a product with empty
name, price ≤ 0 and stock < 0 instead of rejecting it, and likewise accepts
an update violating the bounds. -/
theorem productCreation_cex :
    badProduct.name = "" ∧ badProduct.price < 0 ∧ badProduct.stock < 0 ∧
    (createProduct (Store.mk [] []) 3 badProduct).1.products =
      [{ badProduct with createdAt := 3, updatedAt := 3 }] ∧
    updateProduct sampleStore 4 1 badBody = some (Store.mk [badUpdated] []) := by
  decide

/-! ### The stock-decrement loop of `POST /api/transactions` -/

/-- With unique keys, replacing the first matching record equals replacing
every matching record. -/
theorem updateFirst_eq_map (ps : List Product) (pid : Nat) (f : Product → Product)
    (hnodup : (ps.map Product.id).Nodup) :
    updateFirst ps pid f = ps.map (fun p => if p.id == pid then f p else p) := by
  induction ps with
  | nil => rfl
  | cons p rest ih =>
    rw [List.map_cons, List.nodup_cons] at hnodup
    rw [updateFirst_cons]
    by_cases hp : p.id = pid
    · rw [if_pos (by simpa using hp), List.map_cons, if_pos (by simpa using hp)]
      have hrest : ∀ q ∈ rest, (if q.id == pid then f q else q) = q := by
        intro q hq
        have hqid : q.id ≠ pid := by
          intro hqid
          apply hnodup.1
          rw [hp, ← hqid]
          exact List.mem_map_of_mem Product.id hq
        simp [hqid]
      rw [List.map_congr_left hrest]
      simp
    · rw [if_neg (by simpa using hp), List.map_cons, if_neg (by simpa using hp),
        ih hnodup.2]

/-- One loop iteration, in pointwise form (unique keys). -/
theorem applyItem_eq_map (now : Nat) (ps : List Product) (it : TransactionItem)
    (hnodup : (ps.map Product.id).Nodup) :
    applyItem now ps it =
      ps.map (fun p => if p.id == it.productId then decrItem now it p else p) := by
  cases hfind : ps.find? (fun p => p.id == it.productId) with
  | some q =>
    unfold applyItem
    rw [hfind]
    exact updateFirst_eq_map ps it.productId (decrItem now it) hnodup
  | none =>
    unfold applyItem
    rw [hfind]
    have hnone := List.find?_eq_none.mp hfind
    have hcong : ∀ p ∈ ps, (if p.id == it.productId then decrItem now it p else p) = p := by
      intro p hp
      have hne := hnone p hp
      simp only [beq_iff_eq] at hne
      simp [hne]
    rw [List.map_congr_left hcong]
    simp

/-- The loop step preserves the key sequence. -/
theorem map_id_stepFn (now : Nat) (ps : List Product) (it : TransactionItem) :
    (ps.map (fun p => if p.id == it.productId then decrItem now it p else p)).map Product.id
      = ps.map Product.id := by
  rw [List.map_map]
  apply List.map_congr_left
  intro p _
  by_cases h : p.id = it.productId <;> simp [h, decrItem]

/-- The whole loop, in pointwise form (unique keys). -/
theorem foldl_applyItem (now : Nat) (items : List TransactionItem) :
    ∀ ps : List Product, (ps.map Product.id).Nodup →
      items.foldl (applyItem now) ps =
        ps.map (fun p => items.foldl
          (fun q it => if q.id == it.productId then decrItem now it q else q) p) := by
  induction items with
  | nil =>
    intro ps _
    simp
  | cons it its ih =>
    intro ps hnodup
    rw [List.foldl_cons, applyItem_eq_map now ps it hnodup,
      ih _ (by rw [map_id_stepFn]; exact hnodup), List.map_map]
    rfl

/-- A product referenced by no line keeps a zero quantity sum. -/
theorem qtySum_eq_zero (items : List TransactionItem) (pid : Nat)
    (h : items.any (fun it => it.productId == pid) = false) :
    qtySum items pid = 0 := by
  unfold qtySum
  rw [List.any_eq_false] at h
  have hfil : items.filter (fun it => it.productId == pid) = [] :=
    List.filter_eq_nil_iff.mpr h
  simp [hfil]

/-- Closed form of the per-product effect of the loop: the stock drops by the
sum of the referencing quantities and the timestamp refreshes exactly when at
least one line references the product. -/
theorem foldl_step_closed (now : Nat) (items : List TransactionItem) :
    ∀ p : Product,
      items.foldl (fun q it => if q.id == it.productId then decrItem now it q else q) p =
        if items.any (fun it => it.productId == p.id)
        then { p with stock := p.stock - qtySum items p.id, updatedAt := now }
        else p := by
  induction items with
  | nil => intro p; simp
  | cons it its ih =>
    intro p
    rw [List.foldl_cons]
    by_cases hmatch : p.id = it.productId
    · rw [if_pos (by simpa using hmatch)]
      rw [ih (decrItem now it p)]
      have hid : (decrItem now it p).id = p.id := rfl
      have hany : ((it :: its).any (fun i => i.productId == p.id)) = true := by
        simp [List.any_cons, hmatch]
      have hq : qtySum (it :: its) p.id = it.quantity + qtySum its p.id := by
        unfold qtySum
        rw [List.filter_cons, if_pos (by simpa using hmatch.symm)]
        simp
      rw [hany, if_pos rfl, hq]
      by_cases hits : its.any (fun i => i.productId == p.id) = true
      · rw [hid, hits, if_pos rfl]
        simp only [decrItem]
        simp only [Product.mk.injEq, true_and, and_true]
        omega
      · rw [hid, eq_false_of_ne_true hits, if_neg (by simp),
          qtySum_eq_zero its p.id (eq_false_of_ne_true hits)]
        simp only [decrItem]
        simp only [Product.mk.injEq, true_and, and_true]
        omega
    · rw [if_neg (by simpa using hmatch)]
      rw [ih p]
      have hne : (it.productId == p.id) = false := by
        simp only [beq_eq_false_iff_ne, ne_eq]
        exact fun h => hmatch h.symm
      have hany : ((it :: its).any (fun i => i.productId == p.id))
          = its.any (fun i => i.productId == p.id) := by
        simp [List.any_cons, hne]
      have hq : qtySum (it :: its) p.id = qtySum its p.id := by
        unfold qtySum
        rw [List.filter_cons]
        simp [hne]
      rw [hany, hq]

/-! ### C1: stock decrement of transaction creation -/

/-- C1: a `POST /api/transactions` call (which always succeeds) persists the
transaction with all its line items, and — with unique product keys — every
product present in the store that is referenced by at least one line ends
with its stock decreased by exactly the sum of the referencing quantities and
its updated-timestamp refreshed, while every other product is untouched. -/
theorem createTransaction_spec (s : Store) (now : Nat) (t : Txn)
    (hnodup : (s.products.map Product.id).Nodup) :
    ((createTransaction s now t).1.transactions
        = s.transactions ++ [(createTransaction s now t).2]) ∧
    ((createTransaction s now t).2.items = t.items) ∧
    ((createTransaction s now t).1.products = s.products.map (fun p =>
      if t.items.any (fun it => it.productId == p.id)
      then { p with stock := p.stock - qtySum t.items p.id, updatedAt := now }
      else p)) := by
  refine ⟨rfl, rfl, ?_⟩
  show t.items.foldl (applyItem now) s.products = _
  rw [foldl_applyItem now t.items s.products hnodup]
  exact List.map_congr_left (fun p _ => foldl_step_closed now t.items p)

/-- The single line of the concrete example: quantity 2 of product 1. -/
def sampleItem : TransactionItem :=
  { id := 0, productId := 1, productName := "Coffee", price := 10, quantity := 2,
    total := 20 }

/-- The request of the concrete example. -/
def sampleTxn : Txn :=
  { id := 0, transactionNumber := "", createdAt := 0, status := "", subtotal := 20,
    tax := 0, discount := 0, total := 20, paymentMethod := "cash",
    customerName := none, notes := none, items := [sampleItem] }

theorem createTransaction_spec_witness :
    (sampleStore.products.map Product.id).Nodup ∧
    (((createTransaction sampleStore 4 sampleTxn).1.transactions
        = sampleStore.transactions ++ [(createTransaction sampleStore 4 sampleTxn).2]) ∧
      ((createTransaction sampleStore 4 sampleTxn).2.items = sampleTxn.items) ∧
      ((createTransaction sampleStore 4 sampleTxn).1.products
        = sampleStore.products.map (fun p =>
          if sampleTxn.items.any (fun it => it.productId == p.id)
          then { p with stock := p.stock - qtySum sampleTxn.items p.id, updatedAt := 4 }
          else p))) ∧
    sampleProduct.stock = 5 ∧ sampleItem.quantity = 2 ∧
    findProduct (createTransaction sampleStore 4 sampleTxn).1 1
      = some { sampleProduct with stock := 3, updatedAt := 4 } :=
  ⟨by decide, createTransaction_spec sampleStore 4 sampleTxn (by decide),
    rfl, rfl, by decide⟩

/-! ### C2: transaction-creation validation -/

/-- The loop leaves the product table untouched when no referenced id exists. -/
theorem foldl_applyItem_absent (now : Nat) (items : List TransactionItem) :
    ∀ ps : List Product,
      (∀ it ∈ items, ps.find? (fun p => p.id == it.productId) = none) →
      items.foldl (applyItem now) ps = ps := by
  induction items with
  | nil => intro ps _; rfl
  | cons it its ih =>
    intro ps h
    rw [List.foldl_cons]
    have hstep : applyItem now ps it = ps := by
      unfold applyItem
      rw [h it (List.mem_cons_self it its)]
    rw [hstep]
    exact ih ps (fun i hi => h i (List.mem_cons_of_mem it hi))

/-- C2 amended: `POST /api/transactions` performs no validation and has no
failure path: whatever the lines — empty, with non-positive quantities, or
referencing unknown product ids — the transaction record is always persisted;
a line whose product id is absent is silently skipped, so when no referenced
product exists the product table is completely unchanged. -/
theorem createTransaction_no_validation (s : Store) (now : Nat) (t : Txn) :
    ((createTransaction s now t).1.transactions
        = s.transactions ++ [(createTransaction s now t).2]) ∧
    ((∀ it ∈ t.items, findProduct s it.productId = none) →
      (createTransaction s now t).1.products = s.products) := by
  refine ⟨rfl, fun h => ?_⟩
  show t.items.foldl (applyItem now) s.products = s.products
  exact foldl_applyItem_absent now t.items s.products h

/-- A line referencing the nonexistent product id 2. -/
def ghostItem : TransactionItem :=
  { id := 0, productId := 2, productName := "Ghost", price := 10, quantity := 1,
    total := 10 }

/-- A request whose only line references a nonexistent product. -/
def ghostTxn : Txn :=
  { sampleTxn with items := [ghostItem] }

/-- A line with quantity 0. -/
def zeroItem : TransactionItem :=
  { sampleItem with quantity := 0, total := 0 }

/-- A request whose only line has a non-positive quantity. -/
def zeroQtyTxn : Txn :=
  { sampleTxn with items := [zeroItem] }

/-- A request with no lines at all. -/
def emptyTxn : Txn :=
  { sampleTxn with items := [] }

theorem createTransaction_no_validation_witness :
    (∀ it ∈ ghostTxn.items, findProduct sampleStore it.productId = none) ∧
    ((createTransaction sampleStore 4 ghostTxn).1.transactions
        = sampleStore.transactions ++ [(createTransaction sampleStore 4 ghostTxn).2]) ∧
    (createTransaction sampleStore 4 ghostTxn).1.products = sampleStore.products :=
  have h := createTransaction_no_validation sampleStore 4 ghostTxn
  ⟨by decide, h.1, h.2 (by decide)⟩

/-- C2 counterexample: against a store whose only product has id 1, a request
referencing the unknown id 2 succeeds and persists a transaction record
(instead of failing with NotFound before any write), and requests with a
zero-quantity line or with no lines are accepted just the same (instead of
failing with InvalidInput). -/
theorem createTransaction_cex :
    findProduct sampleStore 2 = none ∧
    (createTransaction sampleStore 4 ghostTxn).1.transactions.length = 1 ∧
    zeroItem.quantity = 0 ∧
    (createTransaction sampleStore 4 zeroQtyTxn).1.transactions.length = 1 ∧
    emptyTxn.items = [] ∧
    (createTransaction sampleStore 4 emptyTxn).1.transactions.length = 1 := by
  decide

/-! ### C3: line totals, C5: the total identity -/

/-- `reduce`-style accumulation equals the sum of the mapped list. -/
theorem foldl_add_eq_sum_map (f : CartItem → ℚ) (cart : List CartItem) :
    ∀ a : ℚ, cart.foldl (fun acc c => acc + f c) a = a + (cart.map f).sum := by
  induction cart with
  | nil => intro a; simp
  | cons c rest ih =>
    intro a
    rw [List.foldl_cons, ih (a + f c), List.map_cons, List.sum_cons, add_assoc]

/-- `calculateTotal` is the sum of price × quantity over the cart. -/
theorem calculateTotal_eq_sum (cart : List CartItem) :
    calculateTotal cart = (cart.map (fun c => c.product.price * (c.quantity : ℚ))).sum := by
  unfold calculateTotal
  rw [foldl_add_eq_sum_map (fun c => c.product.price * (c.quantity : ℚ)) cart 0, zero_add]

/-- The line built by `processTransaction` from one cart item. -/
def clientLine (c : CartItem) : TransactionItem :=
  { id := 0, productId := c.product.id, productName := c.product.name,
    price := c.product.price, quantity := c.quantity,
    total := c.product.price * c.quantity }

/-- C3 amended: the server never recomputes monetary data — `POST
/api/transactions` persists the request's line items, subtotal and total
verbatim, whatever prices or totals the client supplied; it is the client's
`processTransaction` that computes each line's total as the product's
client-side price × quantity and the request's subtotal as the sum of those
line totals. -/
theorem lineTotal_spec :
    (∀ (s : Store) (now : Nat) (t : Txn),
      (createTransaction s now t).2.items = t.items ∧
      (createTransaction s now t).2.subtotal = t.subtotal ∧
      (createTransaction s now t).2.total = t.total) ∧
    (∀ cart r, buildTransactionData cart = some r →
      r.items = cart.map clientLine ∧
      r.subtotal = (r.items.map TransactionItem.total).sum) := by
  refine ⟨fun s now t => ⟨rfl, rfl, rfl⟩, fun cart r h => ?_⟩
  unfold buildTransactionData at h
  split at h
  · exact absurd h (by simp)
  · obtain rfl := Option.some.inj h
    refine ⟨rfl, ?_⟩
    show calculateTotal cart = _
    rw [calculateTotal_eq_sum, List.map_map]
    rfl

/-- A one-line cart: two units of the sample product. -/
def cartDemo : List CartItem :=
  [{ product := sampleProduct, quantity := 2 }]

/-- The request `processTransaction` builds from `cartDemo`. -/
def demoRequest : Txn :=
  (buildTransactionData cartDemo).getD emptyTxn

theorem lineTotal_spec_witness :
    buildTransactionData cartDemo = some demoRequest ∧
    demoRequest.items = cartDemo.map clientLine ∧
    demoRequest.subtotal = (demoRequest.items.map TransactionItem.total).sum ∧
    (createTransaction sampleStore 4 sampleTxn).2.items = sampleTxn.items :=
  have h := lineTotal_spec.2 cartDemo demoRequest rfl
  ⟨rfl, h.1, h.2, (lineTotal_spec.1 sampleStore 4 sampleTxn).1⟩

/-- A line whose client-supplied price and total disagree with the store's
price for product 1 (price 10) and with price × quantity. -/
def tamperedItem : TransactionItem :=
  { id := 0, productId := 1, productName := "Coffee", price := 100, quantity := 1,
    total := 55 }

/-- A request carrying the tampered line. -/
def tamperedTxn : Txn :=
  { sampleTxn with items := [tamperedItem], subtotal := 55, total := 55 }

/-- C3 counterexample: the referenced product's server-side price is 10, yet
the stored transaction's line keeps the client-supplied price 100 and total
55 — the line total is not recomputed as current price × quantity. -/
theorem lineTotal_cex :
    findProduct sampleStore 1 = some sampleProduct ∧
    sampleProduct.price = 10 ∧
    (createTransaction sampleStore 4 tamperedTxn).2.items = [tamperedItem] ∧
    tamperedItem.price ≠ sampleProduct.price ∧
    tamperedItem.total ≠ sampleProduct.price * tamperedItem.quantity := by
  refine ⟨by decide, by decide, rfl, by decide, ?_⟩
  show (55 : ℚ) ≠ 10 * ((1 : Int) : ℚ)
  norm_num

/-- C5 amended: the identity `total = subtotal − discount + tax` is not
enforced by the server — `POST /api/transactions` persists the client-supplied
monetary fields verbatim, so stored transactions may violate it — but every
request built by the client's `processTransaction` satisfies it (it sets
`tax = 0`, `discount = 0`, `total = subtotal`). -/
theorem totalIdentity_spec :
    (∀ (s : Store) (now : Nat) (t : Txn),
      (createTransaction s now t).2.subtotal = t.subtotal ∧
      (createTransaction s now t).2.tax = t.tax ∧
      (createTransaction s now t).2.discount = t.discount ∧
      (createTransaction s now t).2.total = t.total) ∧
    (∀ cart r, buildTransactionData cart = some r →
      r.total = r.subtotal - r.discount + r.tax) := by
  refine ⟨fun s now t => ⟨rfl, rfl, rfl, rfl⟩, fun cart r h => ?_⟩
  unfold buildTransactionData at h
  split at h
  · exact absurd h (by simp)
  · obtain rfl := Option.some.inj h
    show calculateTotal cart = calculateTotal cart - 0 + 0
    ring

theorem totalIdentity_spec_witness :
    buildTransactionData cartDemo = some demoRequest ∧
    demoRequest.total = demoRequest.subtotal - demoRequest.discount + demoRequest.tax ∧
    (createTransaction sampleStore 4 sampleTxn).2.total = sampleTxn.total :=
  ⟨rfl, totalIdentity_spec.2 cartDemo demoRequest rfl,
    (totalIdentity_spec.1 sampleStore 4 sampleTxn).2.2.2⟩

/-- A request violating the monetary identity. -/
def invalidTxn : Txn :=
  { sampleTxn with subtotal := 1, tax := 0, discount := 0, total := 100 }

/-- C5 counterexample: a request with subtotal 1 and total 100 is accepted
and stored with those fields unchanged, so the stored transaction violates
`total = subtotal − discount + tax`. -/
theorem totalIdentity_cex :
    (createTransaction sampleStore 4 invalidTxn).1.transactions
      = [(createTransaction sampleStore 4 invalidTxn).2] ∧
    (createTransaction sampleStore 4 invalidTxn).2.total
      ≠ (createTransaction sampleStore 4 invalidTxn).2.subtotal
        - (createTransaction sampleStore 4 invalidTxn).2.discount
        + (createTransaction sampleStore 4 invalidTxn).2.tax := by
  refine ⟨rfl, ?_⟩
  show (100 : ℚ) ≠ 1 - 0 + 0
  norm_num

/-! ### C9: dashboard statistics -/

/-- C9: the dashboard reports exactly the active-product count, the all-time
transaction count, revenue and count over the current UTC day (the handler's
`CreatedAt >= todayStart` filter coincides with "within the current day"
because every stored transaction was created no later than now), and the
count of active products with stock below 10; creating an additional active
product with stock below 10 raises the low-stock count by exactly one. -/
theorem dashboardStats_spec (s : Store) (todayStart dayLen now tnow : Nat) (p : Product)
    (_hts : todayStart ≤ now) (hnow : now < todayStart + dayLen)
    (hpast : ∀ t ∈ s.transactions, t.createdAt ≤ now)
    (hact : p.isActive = true) (hstock : p.stock < 10) :
    (dashboardStats s todayStart).totalProducts = (getProducts s).length ∧
    (dashboardStats s todayStart).totalTransactions = s.transactions.length ∧
    (dashboardStats s todayStart).todayRevenue =
      ((s.transactions.filter (fun t =>
        decide (todayStart ≤ t.createdAt ∧ t.createdAt < todayStart + dayLen))).map
          (fun t => t.total)).sum ∧
    (dashboardStats s todayStart).todayTransactions =
      (s.transactions.filter (fun t =>
        decide (todayStart ≤ t.createdAt ∧ t.createdAt < todayStart + dayLen))).length ∧
    (dashboardStats s todayStart).lowStockCount =
      (s.products.filter (fun q => q.stock < 10 && q.isActive)).length ∧
    (dashboardStats (createProduct s tnow p).1 todayStart).lowStockCount =
      (dashboardStats s todayStart).lowStockCount + 1 := by
  have hfil : s.transactions.filter (fun t => todayStart ≤ t.createdAt) =
      s.transactions.filter (fun t =>
        decide (todayStart ≤ t.createdAt ∧ t.createdAt < todayStart + dayLen)) := by
    apply List.filter_congr
    intro t ht
    have := hpast t ht
    simp only [decide_eq_decide]
    omega
  refine ⟨rfl, rfl, ?_, ?_, rfl, ?_⟩
  · show ((s.transactions.filter (fun t => todayStart ≤ t.createdAt)).map _).sum = _
    rw [hfil]
  · show (s.transactions.filter (fun t => todayStart ≤ t.createdAt)).length = _
    rw [hfil]
  · show ((s.products ++ [{ p with createdAt := tnow, updatedAt := tnow }]).filter
      (fun (q : Product) => q.stock < 10 && q.isActive)).length = _
    rw [List.filter_append]
    have : ([{ p with createdAt := tnow, updatedAt := tnow }].filter
        (fun (q : Product) => q.stock < 10 && q.isActive)) =
        [{ p with createdAt := tnow, updatedAt := tnow }] := by
      simp [List.filter_cons, hact, hstock]
    rw [this, List.length_append]
    rfl

/-- A past transaction for the dashboard witness. -/
def pastTxn : Txn :=
  { sampleTxn with createdAt := 100, total := 20 }

/-- A store with one active product and one transaction created today. -/
def statStore : Store :=
  { products := [sampleProduct], transactions := [pastTxn] }

theorem dashboardStats_spec_witness :
    (50 ≤ 120 ∧ 120 < 50 + 100 ∧ (∀ t ∈ statStore.transactions, t.createdAt ≤ 120) ∧
      teaProduct.isActive = true ∧ teaProduct.stock < 10) ∧
    ((dashboardStats statStore 50).totalProducts = (getProducts statStore).length ∧
      (dashboardStats statStore 50).totalTransactions = statStore.transactions.length ∧
      (dashboardStats statStore 50).todayRevenue =
        ((statStore.transactions.filter (fun t =>
          decide (50 ≤ t.createdAt ∧ t.createdAt < 50 + 100))).map (fun t => t.total)).sum ∧
      (dashboardStats statStore 50).todayTransactions =
        (statStore.transactions.filter (fun t =>
          decide (50 ≤ t.createdAt ∧ t.createdAt < 50 + 100))).length ∧
      (dashboardStats statStore 50).lowStockCount =
        (statStore.products.filter (fun q => q.stock < 10 && q.isActive)).length ∧
      (dashboardStats (createProduct statStore 110 teaProduct).1 50).lowStockCount =
        (dashboardStats statStore 50).lowStockCount + 1) :=
  ⟨⟨by decide, by decide, by decide, by decide, by decide⟩,
    dashboardStats_spec statStore 50 100 120 110 teaProduct (by decide) (by decide)
      (by decide) (by decide) (by decide)⟩

/-! ### C4: transaction numbering -/

/-- Decimal digit characters are ordered like the digits. -/
theorem digitChar_lt_digitChar (d1 d2 : Nat) (h12 : d1 < d2) (h2 : d2 < 10) :
    Nat.digitChar d1 < Nat.digitChar d2 := by
  interval_cases d2 <;> interval_cases d1 <;> decide

/-- Zero-padded equal-width decimal strings are ordered lexicographically
like the numbers they denote. -/
theorem digitsPad_lex (k : Nat) : ∀ a b : Nat, a < b → b < 10 ^ k →
    List.Lex (· < ·) (digitsPad k a) (digitsPad k b) := by
  induction k with
  | zero =>
    intro a b hab hb
    omega
  | succ k ih =>
    intro a b hab hb
    have hpow : 0 < 10 ^ k := Nat.pos_pow_of_pos k (by omega)
    have hqle : a / 10 ^ k ≤ b / 10 ^ k := Nat.div_le_div_right (Nat.le_of_lt hab)
    rcases Nat.lt_or_ge (a / 10 ^ k) (b / 10 ^ k) with hqlt | hqge
    · have hbq : b / 10 ^ k < 10 := by
        rw [Nat.div_lt_iff_lt_mul hpow]
        calc b < 10 ^ (k + 1) := hb
        _ = 10 * 10 ^ k := by ring
      exact List.Lex.rel (digitChar_lt_digitChar _ _ hqlt hbq)
    · have hqeq : a / 10 ^ k = b / 10 ^ k := Nat.le_antisymm hqle hqge
      have hmod : a % 10 ^ k < b % 10 ^ k := by
        have ha := Nat.div_add_mod a (10 ^ k)
        have hbm := Nat.div_add_mod b (10 ^ k)
        rw [hqeq] at ha
        omega
      have hbmod : b % 10 ^ k < 10 ^ k := Nat.mod_lt b hpow
      show List.Lex (· < ·)
        (Nat.digitChar (a / 10 ^ k) :: digitsPad k (a % 10 ^ k))
        (Nat.digitChar (b / 10 ^ k) :: digitsPad k (b % 10 ^ k))
      rw [hqeq]
      exact List.Lex.cons (ih _ _ hmod hbmod)

/-- Numbers within six digits take no extra width. -/
theorem decimalLen_le_six (n : Nat) (h : n < 1000000) : max 6 (decimalLen n) = 6 := by
  unfold decimalLen
  split_ifs <;> omega

/-- A common prefix preserves lexicographic comparison. -/
theorem lex_append_left (l l1 l2 : List Char)
    (h : List.Lex (· < ·) l1 l2) : List.Lex (· < ·) (l ++ l1) (l ++ l2) := by
  induction l with
  | nil => exact h
  | cons c cs ih => exact List.Lex.cons ih

/-- C4 amended: the handler assigns `TXN-` followed by the current
transaction count plus one, zero-padded to at least six digits, and each
creation grows the count by one, so the numeric counter strictly increases
across sequential creations; the assigned number is moreover lexicographically
strictly greater than every previously assigned one as long as the later
counter stays within six digits (≤ 999999) — the first conjuncts hold
unconditionally, the lexicographic one fails at the six-to-seven-digit
rollover (see the counterexample). -/
theorem txnNumber_spec (s : Store) (now : Nat) (t : Txn) (c1 c2 : Nat)
    (h12 : c1 < c2) (h2 : c2 + 1 ≤ 999999) :
    ((createTransaction s now t).2.transactionNumber = txnNumber s.transactions.length) ∧
    ((createTransaction s now t).1.transactions.length = s.transactions.length + 1) ∧
    (txnNumber c1 = "TXN-" ++ formatMin6 (c1 + 1)) ∧
    (c1 + 1 < c2 + 1) ∧
    List.Lex (· < ·) (txnNumber c1).data (txnNumber c2).data := by
  refine ⟨rfl, by simp [createTransaction], rfl, by omega, ?_⟩
  show List.Lex (· < ·) ("TXN-" ++ formatMin6 (c1 + 1)).data ("TXN-" ++ formatMin6 (c2 + 1)).data
  rw [String.data_append, String.data_append]
  apply lex_append_left
  show List.Lex (· < ·) (formatMin6 (c1 + 1)).data (formatMin6 (c2 + 1)).data
  unfold formatMin6
  rw [decimalLen_le_six (c1 + 1) (by omega), decimalLen_le_six (c2 + 1) (by omega)]
  exact digitsPad_lex 6 (c1 + 1) (c2 + 1) (by omega) (by omega)

theorem txnNumber_spec_witness :
    (0 < 1 ∧ 1 + 1 ≤ 999999) ∧
    ((createTransaction sampleStore 4 sampleTxn).2.transactionNumber
        = txnNumber sampleStore.transactions.length) ∧
    ((createTransaction sampleStore 4 sampleTxn).1.transactions.length
        = sampleStore.transactions.length + 1) ∧
    (txnNumber 0 = "TXN-" ++ formatMin6 1) ∧
    (0 + 1 < 1 + 1) ∧
    List.Lex (· < ·) (txnNumber 0).data (txnNumber 1).data :=
  ⟨⟨by decide, by decide⟩,
    txnNumber_spec sampleStore 4 sampleTxn 0 1 (by decide) (by decide)⟩

/-- C4 counterexample: at the six-to-seven-digit rollover the 1000000th
number `TXN-1000000` is lexicographically smaller — not greater — than the
999999th number `TXN-999999` (and it is not zero-padded to six digits but
printed with seven). -/
theorem txnNumber_cex :
    txnNumber 999998 = "TXN-999999" ∧
    txnNumber 999999 = "TXN-1000000" ∧
    ¬ List.Lex (· < ·) (txnNumber 999998).data (txnNumber 999999).data ∧
    List.Lex (· < ·) (txnNumber 999999).data (txnNumber 999998).data := by
  refine ⟨by decide, by decide, by decide, by decide⟩
